import Mathlib

/-!
Verification of the AQL query parser driver (arangod/Aql/Parser.cpp,
class triagens::aql::Parser).

The parser functions are shallowly embedded as pure Lean functions over an
explicit state.  Pointers to AST nodes are modelled as indices into the
AST's node store (the AST exclusively owns all nodes it allocates; stack
entries and member lists are non-owning references).  Debug assertions
(TRI_ASSERT) that guard preconditions of the stack helpers and of the parse
driver are modelled as Option-valued failure, or as a distinguished
assertion-failure outcome of the parse driver; TRI_ASSERT on function entry
preconditions that the claims supply as hypotheses (configureWriteQuery is
only called for write kinds) is recorded as a hypothesis of the theorems.

External collaborators that are only declared, not defined, in the sources
(scanner, scope tracker internals, Query error sink, AST node factory) are
modelled from the specification; each such definition carries a doc comment
saying so.
-/

namespace Aql

/-- Query classification: READ, or one of the write variants
(AQL_QUERY_READ / _INSERT / _UPDATE / _REPLACE / _REMOVE / _UPSERT). -/
inductive QueryType
  | READ
  | INSERT
  | UPDATE
  | REPLACE
  | REMOVE
  | UPSERT
  deriving DecidableEq, Repr

/-- Error codes surfaced by the parser layer (TRI_ERROR_QUERY_...). -/
inductive ErrorCode
  | NO_ERROR
  | QUERY_PARSE
  | QUERY_MODIFY_IN_SUBQUERY
  | QUERY_MULTI_MODIFY
  | QUERY_COMPILE_TIME_OPTIONS
  | OTHER (n : Nat)
  deriving DecidableEq, Repr

/-- Lexical scope kinds tracked by the scope stack (AQL_SCOPE_MAIN,
AQL_SCOPE_SUBQUERY, ...). -/
inductive ScopeType
  | MAIN
  | SUBQUERY
  | FOR
  deriving DecidableEq, Repr

/-- AST node type tags used by the parser hooks (NODE_TYPE_LIST,
NODE_TYPE_ARRAY, NODE_TYPE_ARRAY_ELEMENT, ...). -/
inductive NodeType
  | LIST
  | ARRAY
  | ARRAY_ELEMENT
  | COLLECTION
  | VALUE
  deriving DecidableEq, Repr

/-- An AST node: a type tag, an attribute name (meaningful for array
elements), an ordered member list holding indices of child nodes in the
AST node store, and its compile-time-constancy (AstNode::isConstant,
computed outside this translation unit, carried here as a field). -/
structure AstNode where
  type : NodeType
  name : String
  members : List Nat
  isConstant : Bool
  deriving DecidableEq, Repr

/-- The query context consumed by the parser: classification, the error
sink, the original query text and the collection names it resolved. -/
structure Query where
  queryType : QueryType
  errors : List (ErrorCode × Option String)
  queryString : String
  collectionNames : List String
  deriving DecidableEq, Repr

/-- Modelled from the spec: the Query Context error sink accumulates error
records; the earliest registration is authoritative for top-level
reporting.  This is Query::registerError(code) with no message. -/
def Query.registerError (q : Query) (code : ErrorCode) : Query :=
  { q with errors := q.errors ++ [(code, none)] }

/-- Modelled from the spec: Query::registerError(code, message), the
two-argument registration used by the parser's error reporting. -/
def Query.registerErrorData (q : Query) (code : ErrorCode) (msg : String) : Query :=
  { q with errors := q.errors ++ [(code, some msg)] }

/-- Query::type(type): set the query classification. -/
def Query.setType (q : Query) (t : QueryType) : Query :=
  { q with queryType := t }

/-- The AST consumed through its narrow interface: the scope stack (most
recent scope at the head), the recorded write-target collection node, the
node store (node i is nodes[i]) and the bind parameter names. -/
structure Ast where
  scopes : List ScopeType
  writeCollection : Option Nat
  nodes : List AstNode
  bindParameters : List String
  deriving DecidableEq, Repr

/-- Modelled from the spec: the scope tracker reports whether the active
scope is a subquery (Ast::isInSubQuery). -/
def Ast.isInSubQuery (a : Ast) : Bool :=
  a.scopes.head? = some ScopeType.SUBQUERY

/-- Modelled from the spec: scope open(kind) pushes a scope record
(Scopes::start). -/
def Ast.startScope (a : Ast) (t : ScopeType) : Ast :=
  { a with scopes := t :: a.scopes }

/-- Modelled from the spec: closeCurrent() pops the innermost scope
(Scopes::endCurrent); popping with no active scope is an assertion
failure. -/
def Ast.endCurrent (a : Ast) : Option Ast :=
  match a.scopes with
  | [] => none
  | _ :: rest => some { a with scopes := rest }

/-- Modelled from the spec: activeCount() is the number of open scopes
(Scopes::numActive). -/
def Ast.numActive (a : Ast) : Nat :=
  a.scopes.length

/-- Modelled from the spec: the write-target recorder
(Ast::setWriteCollection) stores the collection node. -/
def Ast.setWriteCollection (a : Ast) (collectionNode : Nat) : Ast :=
  { a with writeCollection := some collectionNode }

/-- Parser state: the query context, the owned AST, and the semantic value
stack (_stack; entries are non-owning references to AST nodes, modelled as
indices into the node store, with the top of the stack at the head). -/
structure ParserState where
  query : Query
  ast : Ast
  stack : List Nat
  deriving DecidableEq, Repr

/-- Parser::configureWriteQuery(type, collectionNode, optionNode).
Rule order from the source: subquery check, multi-modify check, record the
write-target collection, non-constant options check (non-fatal), set the
classification, return true.  The collection node pointer is the index it
stores; the option node pointer is modelled as the optional node it
points at, since it is only read.  TRI_ASSERT(type != AQL_QUERY_READ) at
entry is a precondition (supplied as a hypothesis by the theorems). -/
def configureWriteQuery (s : ParserState) (type : QueryType)
    (collectionNode : Nat) (optionNode : Option AstNode) : Bool × ParserState :=
  if s.ast.isInSubQuery then
    (false, { s with query := s.query.registerError ErrorCode.QUERY_MODIFY_IN_SUBQUERY })
  else if s.query.queryType ≠ QueryType.READ then
    (false, { s with query := s.query.registerError ErrorCode.QUERY_MULTI_MODIFY })
  else
    let s1 := { s with ast := s.ast.setWriteCollection collectionNode }
    let s2 :=
      match optionNode with
      | some o =>
          if o.isConstant then s1
          else { s1 with query := s1.query.registerError ErrorCode.QUERY_COMPILE_TIME_OPTIONS }
      | none => s1
    (true, { s2 with query := s2.query.setType type })

/-- Claim C1: a configureWriteQuery call with a write opKind, outside any
subquery, on a query still classified READ, records the collection node as
the AST write target, sets the classification to opKind, and returns
success; when the options node is present and not compile-time constant, a
COMPILE_TIME_OPTIONS error is additionally registered, but success, the
write target and the classification stand regardless. -/
theorem configureWriteQuery_success (s : ParserState) (type : QueryType)
    (collectionNode : Nat) (optionNode : Option AstNode)
    (hw : type ≠ QueryType.READ)
    (hsub : s.ast.isInSubQuery = false)
    (hread : s.query.queryType = QueryType.READ) :
    (configureWriteQuery s type collectionNode optionNode).1 = true ∧
    (configureWriteQuery s type collectionNode optionNode).2.ast.writeCollection
      = some collectionNode ∧
    (configureWriteQuery s type collectionNode optionNode).2.query.queryType = type ∧
    (configureWriteQuery s type collectionNode optionNode).2.query.errors
      = s.query.errors ++
        (match optionNode with
         | some o =>
             if o.isConstant then []
             else [(ErrorCode.QUERY_COMPILE_TIME_OPTIONS, none)]
         | none => []) := by
  unfold configureWriteQuery
  rw [hsub]
  cases optionNode with
  | none =>
      simp [hread, Query.setType, Ast.setWriteCollection, Query.registerError]
  | some o =>
      by_cases hc : o.isConstant = true <;>
        simp [hread, hc, Query.setType, Ast.setWriteCollection, Query.registerError]

/-- Witness for C1: a concrete successful write configuration with a
non-constant options node. -/
theorem configureWriteQuery_success_witness :
    (configureWriteQuery
        ⟨⟨QueryType.READ, [], "q", []⟩, ⟨[ScopeType.MAIN], none, [], []⟩, []⟩
        QueryType.REMOVE 3 (some ⟨NodeType.VALUE, "", [], false⟩)).1 = true ∧
    (configureWriteQuery
        ⟨⟨QueryType.READ, [], "q", []⟩, ⟨[ScopeType.MAIN], none, [], []⟩, []⟩
        QueryType.REMOVE 3 (some ⟨NodeType.VALUE, "", [], false⟩)).2.ast.writeCollection
      = some 3 ∧
    (configureWriteQuery
        ⟨⟨QueryType.READ, [], "q", []⟩, ⟨[ScopeType.MAIN], none, [], []⟩, []⟩
        QueryType.REMOVE 3 (some ⟨NodeType.VALUE, "", [], false⟩)).2.query.queryType
      = QueryType.REMOVE ∧
    (configureWriteQuery
        ⟨⟨QueryType.READ, [], "q", []⟩, ⟨[ScopeType.MAIN], none, [], []⟩, []⟩
        QueryType.REMOVE 3 (some ⟨NodeType.VALUE, "", [], false⟩)).2.query.errors
      = [] ++ [(ErrorCode.QUERY_COMPILE_TIME_OPTIONS, none)] := by
  have h := configureWriteQuery_success
    ⟨⟨QueryType.READ, [], "q", []⟩, ⟨[ScopeType.MAIN], none, [], []⟩, []⟩
    QueryType.REMOVE 3 (some ⟨NodeType.VALUE, "", [], false⟩)
    (by decide) (by decide) (by decide)
  exact ⟨h.1, h.2.1, h.2.2.1, h.2.2.2⟩

/-- Claim C2: a configureWriteQuery call while the active scope is a
subquery fails for every opKind, registers MODIFY_IN_SUBQUERY, and leaves
the classification, the write target, the node store, the scopes and the
value stack unchanged (the only mutation is the appended error record). -/
theorem configureWriteQuery_in_subquery (s : ParserState) (type : QueryType)
    (collectionNode : Nat) (optionNode : Option AstNode)
    (hsub : s.ast.isInSubQuery = true) :
    (configureWriteQuery s type collectionNode optionNode).1 = false ∧
    (configureWriteQuery s type collectionNode optionNode).2
      = { s with query := s.query.registerError ErrorCode.QUERY_MODIFY_IN_SUBQUERY } ∧
    (configureWriteQuery s type collectionNode optionNode).2.query.queryType
      = s.query.queryType ∧
    (configureWriteQuery s type collectionNode optionNode).2.ast.writeCollection
      = s.ast.writeCollection ∧
    (configureWriteQuery s type collectionNode optionNode).2.query.errors
      = s.query.errors ++ [(ErrorCode.QUERY_MODIFY_IN_SUBQUERY, none)] := by
  unfold configureWriteQuery
  rw [hsub]
  simp [Query.registerError]

/-- Witness for C2: a concrete call inside a subquery scope fails and
changes nothing but the error sink. -/
theorem configureWriteQuery_in_subquery_witness :
    (configureWriteQuery
        ⟨⟨QueryType.READ, [], "q", []⟩, ⟨[ScopeType.SUBQUERY, ScopeType.MAIN], none, [], []⟩, []⟩
        QueryType.INSERT 0 none).1 = false ∧
    (configureWriteQuery
        ⟨⟨QueryType.READ, [], "q", []⟩, ⟨[ScopeType.SUBQUERY, ScopeType.MAIN], none, [], []⟩, []⟩
        QueryType.INSERT 0 none).2.query.queryType = QueryType.READ ∧
    (configureWriteQuery
        ⟨⟨QueryType.READ, [], "q", []⟩, ⟨[ScopeType.SUBQUERY, ScopeType.MAIN], none, [], []⟩, []⟩
        QueryType.INSERT 0 none).2.query.errors
      = [] ++ [(ErrorCode.QUERY_MODIFY_IN_SUBQUERY, none)] := by
  have h := configureWriteQuery_in_subquery
    ⟨⟨QueryType.READ, [], "q", []⟩, ⟨[ScopeType.SUBQUERY, ScopeType.MAIN], none, [], []⟩, []⟩
    QueryType.INSERT 0 none (by decide)
  exact ⟨h.1, h.2.2.1, h.2.2.2.2⟩

/-- Helper: when the query is already classified as a write query, a
configureWriteQuery call fails and preserves classification and write
target (it registers MULTI_MODIFY unless the subquery rule fired first). -/
theorem configureWriteQuery_fail_not_read (s : ParserState) (type : QueryType)
    (collectionNode : Nat) (optionNode : Option AstNode)
    (h : s.query.queryType ≠ QueryType.READ) :
    (configureWriteQuery s type collectionNode optionNode).1 = false ∧
    (configureWriteQuery s type collectionNode optionNode).2.query.queryType
      = s.query.queryType ∧
    (configureWriteQuery s type collectionNode optionNode).2.ast.writeCollection
      = s.ast.writeCollection := by
  unfold configureWriteQuery
  by_cases h1 : s.ast.isInSubQuery <;>
    simp [h1, h, Query.registerError]

/-- Helper: a successful configureWriteQuery call sets the classification
to the requested kind. -/
theorem configureWriteQuery_true_type (s : ParserState) (type : QueryType)
    (collectionNode : Nat) (optionNode : Option AstNode)
    (h : (configureWriteQuery s type collectionNode optionNode).1 = true) :
    (configureWriteQuery s type collectionNode optionNode).2.query.queryType = type := by
  unfold configureWriteQuery at h ⊢
  by_cases h1 : s.ast.isInSubQuery
  · simp [h1] at h
  · by_cases h2 : s.query.queryType = QueryType.READ
    · cases optionNode with
      | none => simp [h1, h2, Query.setType]
      | some o =>
          by_cases hc : o.isConstant = true <;>
            simp [h1, h2, hc, Query.setType, Query.registerError]
    · simp [h1, h2] at h

/-- Helper: a configureWriteQuery call that fails preserves the
classification. -/
theorem configureWriteQuery_false_type (s : ParserState) (type : QueryType)
    (collectionNode : Nat) (optionNode : Option AstNode)
    (h : (configureWriteQuery s type collectionNode optionNode).1 = false) :
    (configureWriteQuery s type collectionNode optionNode).2.query.queryType
      = s.query.queryType := by
  unfold configureWriteQuery at h ⊢
  by_cases h1 : s.ast.isInSubQuery
  · simp [h1, Query.registerError]
  · by_cases h2 : s.query.queryType = QueryType.READ
    · cases optionNode with
      | none => simp [h1, h2, Query.setType] at h
      | some o =>
          by_cases hc : o.isConstant = true <;>
            simp [h1, h2, hc, Query.setType, Query.registerError] at h
    · simp [h1, h2, Query.registerError]

/-- One configureWriteQuery call as issued by a grammar action: the scope
stack the grammar has built at the moment of the call, and the call's
arguments. -/
structure WriteCall where
  scopes : List ScopeType
  type : QueryType
  collectionNode : Nat
  optionNode : Option AstNode
  deriving DecidableEq, Repr

/-- Install the scope stack the grammar reached at the time of a call;
the grammar only opens and closes scopes, never touching classification,
write target or error sink. -/
def setScopes (s : ParserState) (sc : List ScopeType) : ParserState :=
  { s with ast := { s.ast with scopes := sc } }

/-- Issue one recorded configureWriteQuery call. -/
def applyWriteCall (s : ParserState) (c : WriteCall) : Bool × ParserState :=
  configureWriteQuery (setScopes s c.scopes) c.type c.collectionNode c.optionNode

/-- Run a sequence of configureWriteQuery calls, collecting each call's
returned success flag, in order. -/
def runWriteCalls (s : ParserState) : List WriteCall → List Bool × ParserState
  | [] => ([], s)
  | c :: cs =>
      let r := applyWriteCall s c
      let rest := runWriteCalls r.2 cs
      (r.1 :: rest.1, rest.2)

/-- Helper: once the query is classified as a write query, every further
configureWriteQuery call fails and the classification never changes. -/
theorem runWriteCalls_not_read (cs : List WriteCall) (s : ParserState)
    (h : s.query.queryType ≠ QueryType.READ) :
    (∀ r ∈ (runWriteCalls s cs).1, r = false) ∧
    (runWriteCalls s cs).2.query.queryType = s.query.queryType := by
  induction cs generalizing s with
  | nil => simp [runWriteCalls]
  | cons c cs ih =>
      have hq : (setScopes s c.scopes).query = s.query := rfl
      have hfail := configureWriteQuery_fail_not_read (setScopes s c.scopes)
        c.type c.collectionNode c.optionNode (by rw [hq]; exact h)
      have hne : (applyWriteCall s c).2.query.queryType ≠ QueryType.READ := by
        unfold applyWriteCall
        rw [hfail.2.1, hq]
        exact h
      have ihr := ih (applyWriteCall s c).2 hne
      refine ⟨?_, ?_⟩
      · intro r hr
        simp only [runWriteCalls, List.mem_cons] at hr
        rcases hr with hr | hr
        · rw [hr]; exact hfail.1
        · exact ihr.1 r hr
      · show (runWriteCalls (applyWriteCall s c).2 cs).2.query.queryType
          = s.query.queryType
        rw [ihr.2]
        unfold applyWriteCall
        rw [hfail.2.1, hq]

/-- Helper: a list all of whose members are false counts no true. -/
theorem count_true_eq_zero (l : List Bool) (h : ∀ r ∈ l, r = false) :
    l.count true = 0 := by
  refine List.count_eq_zero.mpr ?_
  intro hmem
  exact Bool.noConfusion (h true hmem)

/-- Claim C3: at most one write operation is ever recorded.  First, a call
made when the query is already a write query (and not in a subquery) fails
with exactly a MULTI_MODIFY registration and no other state change.
Second, over any sequence of write-kind calls starting from READ, at most
one call succeeds, and the final classification is READ when none did, or
the opKind of the unique (hence first) successful call. -/
theorem configureWriteQuery_multi_modify (s : ParserState) (cs : List WriteCall)
    (hread : s.query.queryType = QueryType.READ)
    (hw : ∀ c ∈ cs, c.type ≠ QueryType.READ) :
    (∀ s1 t coll opt, s1.ast.isInSubQuery = false →
        s1.query.queryType ≠ QueryType.READ →
        configureWriteQuery s1 t coll opt
          = (false, { s1 with query := s1.query.registerError ErrorCode.QUERY_MULTI_MODIFY })) ∧
    (runWriteCalls s cs).1.count true ≤ 1 ∧
    (((∀ r ∈ (runWriteCalls s cs).1, r = false) ∧
        (runWriteCalls s cs).2.query.queryType = QueryType.READ) ∨
      (∃ i c, (runWriteCalls s cs).1.get? i = some true ∧ cs.get? i = some c ∧
        (runWriteCalls s cs).2.query.queryType = c.type ∧
        ∀ j, j ≠ i → (runWriteCalls s cs).1.get? j ≠ some true)) := by
  refine ⟨?_, ?_⟩
  · intro s1 t coll opt hsub hnr
    unfold configureWriteQuery
    simp [hsub, hnr]
  · induction cs generalizing s with
    | nil =>
        refine ⟨by simp [runWriteCalls], Or.inl ⟨by simp [runWriteCalls], ?_⟩⟩
        simpa [runWriteCalls] using hread
    | cons c cs ih =>
        have hq : (setScopes s c.scopes).query = s.query := rfl
        rcases hok : (applyWriteCall s c).1 with _ | _
        · -- the first call failed: recurse from an unchanged classification
          have hpres : (applyWriteCall s c).2.query.queryType = QueryType.READ := by
            unfold applyWriteCall at hok ⊢
            rw [configureWriteQuery_false_type _ _ _ _ hok, hq, hread]
          have ihr := ih (applyWriteCall s c).2 hpres
            (fun d hd => hw d (List.mem_cons_of_mem c hd))
          refine ⟨?_, ?_⟩
          · show ((applyWriteCall s c).1 :: (runWriteCalls (applyWriteCall s c).2 cs).1).count true ≤ 1
            rw [hok]
            simpa using ihr.1
          · rcases ihr.2 with ⟨hall, hty⟩ | ⟨i, d, h1, h2, h3, h4⟩
            · refine Or.inl ⟨?_, hty⟩
              intro r hr
              simp only [runWriteCalls, List.mem_cons] at hr
              rcases hr with hr | hr
              · rw [hr]; exact hok
              · exact hall r hr
            · refine Or.inr ⟨i + 1, d, ?_, ?_, h3, ?_⟩
              · show ((applyWriteCall s c).1 :: (runWriteCalls (applyWriteCall s c).2 cs).1).get? (i + 1) = some true
                simpa using h1
              · simpa using h2
              · intro j hj
                match j with
                | 0 =>
                    show ((applyWriteCall s c).1 :: _).get? 0 ≠ some true
                    rw [hok]
                    simp
                | k + 1 =>
                    show ((applyWriteCall s c).1 :: (runWriteCalls (applyWriteCall s c).2 cs).1).get? (k + 1) ≠ some true
                    have : k ≠ i := fun hki => hj (by rw [hki])
                    simpa using h4 k this
        · -- the first call succeeded: everything after it fails
          have hty : (applyWriteCall s c).2.query.queryType = c.type := by
            unfold applyWriteCall at hok ⊢
            exact configureWriteQuery_true_type _ _ _ _ hok
          have hnr : (applyWriteCall s c).2.query.queryType ≠ QueryType.READ := by
            rw [hty]
            exact hw c (List.mem_cons_self c cs)
          have hstay := runWriteCalls_not_read cs (applyWriteCall s c).2 hnr
          have hcnt : (runWriteCalls (applyWriteCall s c).2 cs).1.count true = 0 :=
            count_true_eq_zero _ hstay.1
          refine ⟨?_, Or.inr ⟨0, c, ?_, rfl, ?_, ?_⟩⟩
          · show ((applyWriteCall s c).1 :: (runWriteCalls (applyWriteCall s c).2 cs).1).count true ≤ 1
            rw [hok]
            simp [hcnt]
          · show ((applyWriteCall s c).1 :: _).get? 0 = some true
            rw [hok]
            rfl
          · show (runWriteCalls (applyWriteCall s c).2 cs).2.query.queryType = c.type
            rw [hstay.2, hty]
          · intro j hj
            match j with
            | 0 => exact absurd rfl hj
            | k + 1 =>
                show ((applyWriteCall s c).1 :: (runWriteCalls (applyWriteCall s c).2 cs).1).get? (k + 1) ≠ some true
                simp only [List.get?_cons_succ]
                intro hk
                have hmem := List.get?_mem hk
                exact Bool.noConfusion (hstay.1 true hmem)

/-- Witness for C3: two write calls in sequence; the second fails, exactly
one success is counted, and the final classification is that of the first
call. -/
theorem configureWriteQuery_multi_modify_witness :
    (runWriteCalls
        ⟨⟨QueryType.READ, [], "q", []⟩, ⟨[ScopeType.MAIN], none, [], []⟩, []⟩
        [⟨[ScopeType.MAIN], QueryType.REMOVE, 1, none⟩,
         ⟨[ScopeType.MAIN], QueryType.INSERT, 2, none⟩]).1.count true ≤ 1 := by
  have h := configureWriteQuery_multi_modify
    ⟨⟨QueryType.READ, [], "q", []⟩, ⟨[ScopeType.MAIN], none, [], []⟩, []⟩
    [⟨[ScopeType.MAIN], QueryType.REMOVE, 1, none⟩,
     ⟨[ScopeType.MAIN], QueryType.INSERT, 2, none⟩]
    (by decide) (by decide)
  exact h.2.1

/-- The result assembled by a successful parse: the query's collection
names, the AST's bind parameter names, and the AST's serialized form
(Ast::toJson, modelled as the node store it serializes). -/
structure QueryResult where
  collectionNames : List String
  bindParameters : List String
  json : List AstNode
  deriving DecidableEq, Repr

/-- Outcome of one run of the generated grammar (Aqlparse): a zero return
(ok), a non-zero return (lexing/parsing failed), or an exception escaping
from a grammar action. -/
inductive GrammarOutcome
  | ok
  | failed
  | thrown (e : ErrorCode)
  deriving DecidableEq, Repr

/-- Outcome of Parser::parse(): a QueryResult, a propagated exception
(THROW_ARANGO_EXCEPTION or a rethrown one), or a TRI_ASSERT failure. -/
inductive ParseOutcome
  | success (r : QueryResult)
  | raised (e : ErrorCode)
  | assertFailed
  deriving DecidableEq, Repr

/-- Scanner lifecycle events emitted by parse(), in chronological order:
Aqllex_init and Aqllex_destroy. -/
inductive Event
  | scannerInit
  | scannerDestroy
  deriving DecidableEq, Repr

/-- Parser::parse().  The generated grammar (Aqlparse, external to this
translation unit) is a parameter: it transforms the parser state and
reports whether it returned zero, returned non-zero, or threw.  The driver
opens the MAIN scope, initializes the scanner, runs the grammar inside a
try block, destroys the scanner exactly where the source does (in the try
on the ok path, in the catch-all otherwise), and on the ok path closes the
main scope, asserts no scope is active, and assembles the QueryResult from
the query's collection names, the AST's bind parameters and the AST's
serialized form.  The returned event list records the scanner lifecycle in
order; the returned state is the state at exit. -/
def parse (grammar : ParserState → GrammarOutcome × ParserState)
    (s : ParserState) : ParseOutcome × ParserState × List Event :=
  match grammar { s with ast := s.ast.startScope ScopeType.MAIN } with
  | (GrammarOutcome.failed, sg) =>
      (ParseOutcome.raised ErrorCode.QUERY_PARSE, sg,
        [Event.scannerInit, Event.scannerDestroy])
  | (GrammarOutcome.thrown e, sg) =>
      (ParseOutcome.raised e, sg, [Event.scannerInit, Event.scannerDestroy])
  | (GrammarOutcome.ok, sg) =>
      match sg.ast.endCurrent with
      | none =>
          (ParseOutcome.assertFailed, sg, [Event.scannerInit, Event.scannerDestroy])
      | some a2 =>
          if a2.numActive ≠ 0 then
            (ParseOutcome.assertFailed, { sg with ast := a2 },
              [Event.scannerInit, Event.scannerDestroy])
          else
            (ParseOutcome.success
                ⟨sg.query.collectionNames, a2.bindParameters, a2.nodes⟩,
              { sg with ast := a2 }, [Event.scannerInit, Event.scannerDestroy])

/-- Helper: on every path through parse(), the emitted scanner lifecycle
is exactly one init followed by exactly one destroy. -/
theorem parse_events (grammar : ParserState → GrammarOutcome × ParserState)
    (s : ParserState) :
    (parse grammar s).2.2 = [Event.scannerInit, Event.scannerDestroy] := by
  rcases hg : grammar { s with ast := s.ast.startScope ScopeType.MAIN } with ⟨o, sg⟩
  unfold parse
  rw [hg]
  cases o with
  | failed => rfl
  | thrown e => rfl
  | ok =>
      cases he : sg.ast.endCurrent with
      | none => simp [he]
      | some a2 =>
          by_cases hn : a2.numActive = 0 <;> simp [he, hn]

/-- Claim C7: on every execution of parse() — normal completion, grammar
failure, or an exception propagating out of the parse loop — the scanner
handle acquired at parse start is released exactly once: the event trace
is always one scannerInit followed by one scannerDestroy, so the destroy
count is exactly 1 before parse() returns or its exception escapes. -/
theorem parse_releases_scanner_once
    (grammar : ParserState → GrammarOutcome × ParserState) (s : ParserState) :
    (parse grammar s).2.2.count Event.scannerDestroy = 1 ∧
    (parse grammar s).2.2 = [Event.scannerInit, Event.scannerDestroy] := by
  refine ⟨?_, parse_events grammar s⟩
  rw [parse_events grammar s]
  rfl

/-- Claim C8: when the grammar-level parse fails, parse() raises the
terminal QUERY_PARSE error after releasing the scanner (the trace ends in
scannerDestroy), produces no QueryResult, and neither closes the main
scope nor assembles anything: the state at exit is exactly the state the
grammar left. -/
theorem parse_grammar_failure
    (grammar : ParserState → GrammarOutcome × ParserState) (s s2 : ParserState)
    (h : grammar { s with ast := s.ast.startScope ScopeType.MAIN }
        = (GrammarOutcome.failed, s2)) :
    parse grammar s = (ParseOutcome.raised ErrorCode.QUERY_PARSE, s2,
      [Event.scannerInit, Event.scannerDestroy]) := by
  unfold parse
  rw [h]

/-- Witness for C8: a concrete always-failing grammar propagates
QUERY_PARSE with the scanner released and the state untouched beyond what
the grammar did. -/
theorem parse_grammar_failure_witness :
    parse (fun st => (GrammarOutcome.failed, st))
        ⟨⟨QueryType.READ, [], "q", []⟩, ⟨[], none, [], []⟩, []⟩
      = (ParseOutcome.raised ErrorCode.QUERY_PARSE,
         ⟨⟨QueryType.READ, [], "q", []⟩, ⟨[ScopeType.MAIN], none, [], []⟩, []⟩,
         [Event.scannerInit, Event.scannerDestroy]) :=
  parse_grammar_failure (fun st => (GrammarOutcome.failed, st))
    ⟨⟨QueryType.READ, [], "q", []⟩, ⟨[], none, [], []⟩, []⟩
    ⟨⟨QueryType.READ, [], "q", []⟩, ⟨[ScopeType.MAIN], none, [], []⟩, []⟩
    rfl

/-- A grammar run that returns successfully with the scope stack balanced
but a value left on the semantic value stack. -/
def leakyStackGrammar : ParserState → GrammarOutcome × ParserState :=
  fun st => (GrammarOutcome.ok, { st with stack := [0] })

/-- An initial parser state over an empty query context. -/
def emptyParserState : ParserState :=
  ⟨⟨QueryType.READ, [], "", []⟩, ⟨[], none, [], []⟩, []⟩

/-- Counterexample to claim C4: parse() returns successfully from a
grammar run that left the semantic value stack non-empty — no assertion
fires for the stack, so parse() does not check value-stack emptiness at
completion (it only asserts the active-scope count). -/
theorem parse_no_stack_check_counterexample :
    (parse leakyStackGrammar emptyParserState).1
      = ParseOutcome.success ⟨[], [], []⟩ ∧
    (parse leakyStackGrammar emptyParserState).2.1.stack = [0] := by
  constructor <;> rfl

/-- Claim C4 as amended: after every successful return of parse() the
active-scope count is exactly 0, and parse() checks the scope count at
completion, failing fast with an assertion (not a user diagnostic) when,
after closing the main scope, any scope remains active; emptiness of the
semantic value stack is not checked by parse(). -/
theorem parse_scope_balance
    (grammar : ParserState → GrammarOutcome × ParserState) (s : ParserState) :
    (∀ r s2 ev, parse grammar s = (ParseOutcome.success r, s2, ev) →
        s2.ast.numActive = 0) ∧
    (∀ s2, grammar { s with ast := s.ast.startScope ScopeType.MAIN }
          = (GrammarOutcome.ok, s2) →
        s2.ast.numActive ≠ 1 →
        (parse grammar s).1 = ParseOutcome.assertFailed) := by
  constructor
  · intro r s2 ev h
    rcases hg : grammar { s with ast := s.ast.startScope ScopeType.MAIN } with ⟨o, sg⟩
    unfold parse at h
    rw [hg] at h
    cases o with
    | failed => simp at h
    | thrown e => simp at h
    | ok =>
        cases he : sg.ast.endCurrent with
        | none => simp [he] at h
        | some a2 =>
            simp only [he] at h
            by_cases hn : a2.numActive = 0
            · rw [if_neg (not_not_intro hn)] at h
              have h2 : ({ sg with ast := a2 } : ParserState) = s2 := by
                have h3 := congrArg (fun p => p.2.1) h
                simpa using h3
              rw [← h2]
              exact hn
            · rw [if_pos hn] at h
              simp at h
  · intro s2 hg hn
    unfold parse
    rw [hg]
    rcases hs : s2.ast.scopes with _ | ⟨x, rest⟩
    · have he : s2.ast.endCurrent = none := by
        unfold Ast.endCurrent
        rw [hs]
      simp [he]
    · have he : s2.ast.endCurrent = some { s2.ast with scopes := rest } := by
        unfold Ast.endCurrent
        rw [hs]
      have hr : ({ s2.ast with scopes := rest } : Ast).numActive ≠ 0 := by
        unfold Ast.numActive at hn ⊢
        rw [hs] at hn
        intro h0
        apply hn
        simp at h0
        simp [h0]
      simp only [he]
      rw [if_pos hr]

/-- Witness for C4's amended theorem: a balanced grammar run yields a
successful parse with active-scope count 0, and an unbalanced one (an
extra scope left open) is stopped by the assertion. -/
theorem parse_scope_balance_witness :
    (parse (fun st => (GrammarOutcome.ok, st)) emptyParserState).2.1.ast.numActive = 0 ∧
    (parse (fun st => (GrammarOutcome.ok,
        { st with ast := st.ast.startScope ScopeType.FOR })) emptyParserState).1
      = ParseOutcome.assertFailed := by
  constructor
  · exact (parse_scope_balance (fun st => (GrammarOutcome.ok, st)) emptyParserState).1
      ⟨[], [], []⟩
      ⟨⟨QueryType.READ, [], "", []⟩, ⟨[], none, [], []⟩, []⟩
      [Event.scannerInit, Event.scannerDestroy] rfl
  · exact (parse_scope_balance _ emptyParserState).2
      ⟨⟨QueryType.READ, [], "", []⟩,
        ⟨[ScopeType.FOR, ScopeType.MAIN], none, [], []⟩, []⟩
      rfl (by decide)

/-- The caret marker line built by Parser::registerParseError: the buffer
receives one space per column; then, if any spaces were written, the write
position steps back one and overwrites the last space with a caret; then
two further carets are written before the terminator. -/
def arrowPointer (column : Nat) : String :=
  let buf := List.replicate column ' '
  let buf2 := if 0 < column then buf.set (column - 1) '^' else buf
  String.mk (buf2 ++ [ '^', '^' ])

/-- Helper: overwriting the last of n+1 repeated spaces with a caret. -/
theorem replicate_set_last (n : Nat) :
    (List.replicate (n + 1) ' ').set n '^' = List.replicate n ' ' ++ [ '^' ] := by
  induction n with
  | zero => rfl
  | succ k ih =>
      show ' ' :: (List.replicate (k + 1) ' ').set k '^'
        = List.replicate (k + 1) ' ' ++ [ '^' ]
      rw [ih]
      rfl

/-- Counterexample to claim C5: at column 2 the caret marker line is one
space followed by three carets, not two spaces followed by a two-character
marker — its second character is a caret where the claim requires the
second of two spaces. -/
theorem arrowPointer_counterexample :
    arrowPointer 2 = " ^^^" ∧ (" ^^^" : String).data.get? 1 ≠ some ' ' := by
  constructor
  · decide
  · decide

/-- Claim C5 as amended: the caret marker line built for a failure at
column c is exactly two carets when c is 0, and otherwise c minus 1 spaces
followed by three carets (the last space position is overwritten by the
first caret), its total length being c plus 2. -/
theorem arrowPointer_shape (column : Nat) :
    arrowPointer column
      = (if column = 0 then String.mk [ '^', '^' ]
         else String.mk (List.replicate (column - 1) ' ' ++ [ '^', '^', '^' ])) ∧
    (arrowPointer column).length = column + 2 := by
  rcases column with _ | c
  · exact ⟨rfl, rfl⟩
  · constructor
    · show String.mk ((if 0 < c + 1 then
          (List.replicate (c + 1) ' ').set (c + 1 - 1) '^'
        else List.replicate (c + 1) ' ') ++ [ '^', '^' ]) = _
      rw [if_pos (Nat.succ_pos c), if_neg (Nat.succ_ne_zero c)]
      show String.mk ((List.replicate (c + 1) ' ').set c '^' ++ [ '^', '^' ])
        = String.mk (List.replicate (c + 1 - 1) ' ' ++ [ '^', '^', '^' ])
      rw [replicate_set_last c]
      simp
    · show (String.mk ((if 0 < c + 1 then
          (List.replicate (c + 1) ' ').set (c + 1 - 1) '^'
        else List.replicate (c + 1) ' ') ++ [ '^', '^' ])).length = c + 1 + 2
      rw [if_pos (Nat.succ_pos c)]
      simp [String.length]

/-- Parser::registerError(errorCode, data): funnel an error with its
message into the query context's error sink. -/
def registerError (s : ParserState) (errorCode : ErrorCode) (data : String) : ParserState :=
  { s with query := s.query.registerErrorData errorCode data }

/-- C snprintf semantics for a fixed-size buffer: at most size minus 1
characters of the formatted text are stored, the last byte holding the
terminator; longer text is truncated. -/
def snprintfBuf (size : Nat) (text : String) : String :=
  String.mk (text.data.take (size - 1))

/-- The diagnostic Parser::registerParseError assembles by snprintf into
its fixed 512-byte buffer, combining the message, the extracted region,
the line as given, the column plus one (scanner columns are 0-based
internally), the full original query text, and the caret marker line —
the whole truncated to the buffer bound. -/
def parseErrorDiagnostic (data region queryString : String)
    (line column : Nat) : String :=
  snprintfBuf 512 (data ++ " near \x27" ++ region ++ "\x27 at position "
    ++ toString line ++ ":" ++ toString (column + 1) ++ ":\n" ++ queryString
    ++ "\n" ++ arrowPointer column ++ "\n")

/-- Parser::registerParseError(errorCode, data, line, column): asserts
that the code is not the no-error sentinel, extracts the source region
around the failure point (Query::extractRegion, external, passed as a
function), builds the caret line and the combined diagnostic, and
registers the single resulting error on the query context. -/
def registerParseError (extractRegion : Nat → Nat → String) (s : ParserState)
    (errorCode : ErrorCode) (data : String) (line column : Nat) :
    Option ParserState :=
  if errorCode = ErrorCode.NO_ERROR then none
  else some (registerError s errorCode
    (parseErrorDiagnostic data (extractRegion line column)
      s.query.queryString line column))

/-- Helper: snprintf stores the text unchanged when it fits the buffer
with its terminator. -/
theorem snprintfBuf_of_le (size : Nat) (text : String)
    (h : text.length ≤ size - 1) : snprintfBuf size text = text := by
  unfold snprintfBuf
  rw [List.take_of_length_le h]

/-- A parser state whose query text is 600 characters long, exceeding the
diagnostic buffer. -/
def longQueryState : ParserState :=
  ⟨⟨QueryType.READ, [], String.mk (List.replicate 600 'x'), []⟩,
    ⟨[], none, [], []⟩, []⟩

set_option maxRecDepth 40000 in
/-- Counterexample to claim C6: with a 600-character query text the fixed
512-byte buffer truncates the diagnostic, so the record registered by
registerParseError is not the full in-order combination of message,
region, position, query text and caret line the claim asserts for every
call — the stored text is 511 characters long and the caret line is cut
off. -/
theorem registerParseError_truncation_counterexample :
    registerParseError (fun _ _ => "IN") longQueryState
        ErrorCode.QUERY_PARSE "syntax error" 1 2
      ≠ some { longQueryState with query := { longQueryState.query with
          errors := longQueryState.query.errors
            ++ [(ErrorCode.QUERY_PARSE, some ("syntax error" ++ " near \x27"
                ++ "IN" ++ "\x27 at position " ++ toString 1 ++ ":"
                ++ toString (2 + 1) ++ ":\n" ++ longQueryState.query.queryString
                ++ "\n" ++ arrowPointer 2 ++ "\n"))] } } ∧
    (registerParseError (fun _ _ => "IN") longQueryState
        ErrorCode.QUERY_PARSE "syntax error" 1 2).map
        (fun s2 => s2.query.errors.map (fun e => e.2.map String.length))
      = some [some 511] := by
  constructor
  · decide
  · decide

/-- Claim C6 as amended: every registerParseError call registers exactly
one diagnostic on the query context, whose text is the in-order
combination of the message, the extracted region, the line as given, the
internally 0-based column displayed plus 1, the full original query text,
and the caret marker line, truncated to the first 511 characters by the
fixed 512-byte buffer; whenever the combined text fits the buffer it is
registered in full. -/
theorem registerParseError_diagnostic_bounded
    (extractRegion : Nat → Nat → String) (s : ParserState)
    (errorCode : ErrorCode) (data : String) (line column : Nat)
    (h : errorCode ≠ ErrorCode.NO_ERROR) :
    registerParseError extractRegion s errorCode data line column
      = some { s with query := { s.query with errors := s.query.errors
          ++ [(errorCode, some (snprintfBuf 512 (data ++ " near \x27"
              ++ extractRegion line column ++ "\x27 at position "
              ++ toString line ++ ":" ++ toString (column + 1) ++ ":\n"
              ++ s.query.queryString ++ "\n"
              ++ arrowPointer column ++ "\n")))] } } ∧
    ((data ++ " near \x27" ++ extractRegion line column ++ "\x27 at position "
        ++ toString line ++ ":" ++ toString (column + 1) ++ ":\n"
        ++ s.query.queryString ++ "\n" ++ arrowPointer column ++ "\n").length
          ≤ 511 →
      snprintfBuf 512 (data ++ " near \x27" ++ extractRegion line column
          ++ "\x27 at position " ++ toString line ++ ":" ++ toString (column + 1)
          ++ ":\n" ++ s.query.queryString ++ "\n" ++ arrowPointer column ++ "\n")
        = data ++ " near \x27" ++ extractRegion line column ++ "\x27 at position "
          ++ toString line ++ ":" ++ toString (column + 1) ++ ":\n"
          ++ s.query.queryString ++ "\n" ++ arrowPointer column ++ "\n") := by
  constructor
  · unfold registerParseError
    rw [if_neg h]
    rfl
  · intro hle
    exact snprintfBuf_of_le 512 _ hle

/-- Witness for C6: a concrete registration whose combined text fits the
buffer is registered as exactly the full combined diagnostic. -/
theorem registerParseError_diagnostic_bounded_witness :
    registerParseError (fun _ _ => "IN") emptyParserState
        ErrorCode.QUERY_PARSE "syntax error" 1 2
      = some { emptyParserState with query := { emptyParserState.query with
          errors := emptyParserState.query.errors
            ++ [(ErrorCode.QUERY_PARSE, some ("syntax error" ++ " near \x27"
                ++ "IN" ++ "\x27 at position " ++ toString 1 ++ ":"
                ++ toString (2 + 1) ++ ":\n" ++ emptyParserState.query.queryString
                ++ "\n" ++ arrowPointer 2 ++ "\n"))] } } := by
  have h := registerParseError_diagnostic_bounded (fun _ _ => "IN")
    emptyParserState ErrorCode.QUERY_PARSE "syntax error" 1 2 (by decide)
  rw [h.1, h.2 (by decide)]

/-- Parser::pushStack(value): push a temporary value (a non-owning AST
node reference) onto the parser's value stack. -/
def pushStack (s : ParserState) (value : Nat) : ParserState :=
  { s with stack := value :: s.stack }

/-- Parser::popStack(): TRI_ASSERT the stack is non-empty, then remove and
return the top value. -/
def popStack (s : ParserState) : Option (Nat × ParserState) :=
  match s.stack with
  | [] => none
  | v :: rest => some (v, { s with stack := rest })

/-- Parser::peekStack(): TRI_ASSERT the stack is non-empty, then return
the top value; the parser state is returned as it is. -/
def peekStack (s : ParserState) : Option (Nat × ParserState) :=
  match s.stack with
  | [] => none
  | v :: _ => some (v, s)

/-- Claim C9: pushStack then popStack returns exactly the pushed value and
restores the previous state (LIFO round-trip); popStack and peekStack fail
fast (assert) on an empty stack; and peekStack never modifies the
state. -/
theorem stack_lifo (s : ParserState) (value : Nat) :
    popStack (pushStack s value) = some (value, s) ∧
    peekStack (pushStack s value) = some (value, pushStack s value) ∧
    (s.stack = [] → popStack s = none ∧ peekStack s = none) ∧
    (∀ v s2, peekStack s = some (v, s2) → s2 = s) := by
  refine ⟨rfl, rfl, ?_, ?_⟩
  · intro h
    unfold popStack peekStack
    rw [h]
    exact ⟨rfl, rfl⟩
  · intro v s2 h
    unfold peekStack at h
    rcases hs : s.stack with _ | ⟨x, rest⟩
    · rw [hs] at h
      simp at h
    · rw [hs] at h
      simp at h
      exact h.2.symm

/-- Witness for C9: a concrete push/pop round-trip, and pop and peek
failing on the empty stack. -/
theorem stack_lifo_witness :
    popStack (pushStack emptyParserState 5) = some (5, emptyParserState) ∧
    popStack emptyParserState = none ∧
    peekStack emptyParserState = none := by
  have h := stack_lifo emptyParserState 5
  exact ⟨h.1, (h.2.2.1 rfl).1, (h.2.2.1 rfl).2⟩

/-- Parser::pushList(node): peek at the stack top (assert non-empty),
assert the referenced node has list type, and append node to that node's
member list (AstNode::addMember).  A stack top that references no node in
the store is a dangling pointer, outside the model. -/
def pushList (s : ParserState) (node : Nat) : Option ParserState :=
  match s.stack with
  | [] => none
  | listRef :: _ =>
      match s.ast.nodes.get? listRef with
      | none => none
      | some nd =>
          if nd.type = NodeType.LIST then
            some { s with ast := { s.ast with
              nodes := s.ast.nodes.set listRef { nd with members := nd.members ++ [node] } } }
          else none

/-- Modelled from the spec: the AST node factory wraps a (name, node)
pair into a keyed element (Ast::createNodeArrayElement): a fresh
ARRAY_ELEMENT node carrying the attribute name and the wrapped node as
its single member, appended to the node store; its index is returned. -/
def Ast.createNodeArrayElement (a : Ast) (attributeName : String)
    (node : Nat) : Nat × Ast :=
  (a.nodes.length,
   { a with nodes := a.nodes ++ [⟨NodeType.ARRAY_ELEMENT, attributeName, [node], false⟩] })

/-- Parser::pushArray(attributeName, node): peek at the stack top (assert
non-empty), assert the referenced node has array type, wrap the
(attributeName, node) pair into a keyed element via the AST factory, and
append that element to the array node's member list. -/
def pushArray (s : ParserState) (attributeName : String) (node : Nat) :
    Option ParserState :=
  match s.stack with
  | [] => none
  | arrayRef :: _ =>
      match s.ast.nodes.get? arrayRef with
      | none => none
      | some nd =>
          if nd.type = NodeType.ARRAY then
            some { s with ast := { (s.ast.createNodeArrayElement attributeName node).2 with
              nodes := ((s.ast.createNodeArrayElement attributeName node).2.nodes.set arrayRef
                { nd with
                  members := nd.members
                    ++ [(s.ast.createNodeArrayElement attributeName node).1] }) } }
          else none

/-- Claim C10: pushList and pushArray leave the value stack unchanged,
require the top entry to reference a node of list (respectively array)
type, and append exactly one member to the node that entry references —
pushArray appending the index of a fresh keyed element wrapping the
(name, node) pair — leaving every other node of the store untouched, so
members accumulate on the top node in call order. -/
theorem push_hooks_frame (s : ParserState) (attributeName : String) (node : Nat) :
    (∀ s2, pushList s node = some s2 →
        s2.stack = s.stack ∧
        (∃ listRef nd, s.stack.head? = some listRef ∧
          s.ast.nodes.get? listRef = some nd ∧ nd.type = NodeType.LIST ∧
          s2.ast.nodes.get? listRef
            = some { nd with members := nd.members ++ [node] } ∧
          ∀ j, j ≠ listRef → s2.ast.nodes.get? j = s.ast.nodes.get? j)) ∧
    (∀ s2, pushArray s attributeName node = some s2 →
        s2.stack = s.stack ∧
        (∃ arrayRef nd, s.stack.head? = some arrayRef ∧
          s.ast.nodes.get? arrayRef = some nd ∧ nd.type = NodeType.ARRAY ∧
          s2.ast.nodes.get? arrayRef
            = some { nd with members := nd.members ++ [s.ast.nodes.length] } ∧
          s2.ast.nodes.get? s.ast.nodes.length
            = some ⟨NodeType.ARRAY_ELEMENT, attributeName, [node], false⟩ ∧
          ∀ j, j ≠ arrayRef → j ≠ s.ast.nodes.length →
            s2.ast.nodes.get? j = s.ast.nodes.get? j)) ∧
    (s.stack = [] → pushList s node = none ∧ pushArray s attributeName node = none) ∧
    (∀ listRef nd, s.stack.head? = some listRef →
        s.ast.nodes.get? listRef = some nd →
        (nd.type ≠ NodeType.LIST → pushList s node = none) ∧
        (nd.type ≠ NodeType.ARRAY → pushArray s attributeName node = none)) := by
  refine ⟨?_, ?_, ?_, ?_⟩
  · intro s2 h
    unfold pushList at h
    rcases hs : s.stack with _ | ⟨listRef, rest⟩ <;> rw [hs] at h <;> simp only [] at h
    · exact Option.noConfusion h
    · rcases hn : s.ast.nodes.get? listRef with _ | nd <;> rw [hn] at h <;>
        simp only [] at h
      · exact Option.noConfusion h
      · by_cases ht : nd.type = NodeType.LIST
        · rw [if_pos ht] at h
          have h2 := Option.some.inj h
          have hlt : listRef < s.ast.nodes.length := by
            by_contra hge
            rw [List.get?_eq_none.mpr (Nat.le_of_not_lt hge)] at hn
            exact Option.noConfusion hn
          refine ⟨by rw [← h2], listRef, nd, rfl, hn, ht, ?_, ?_⟩
          · rw [← h2]
            show (s.ast.nodes.set listRef
              { nd with members := nd.members ++ [node] }).get? listRef = _
            rw [List.get?_set_eq_of_lt _ hlt]
          · intro j hj
            rw [← h2]
            show (s.ast.nodes.set listRef _).get? j = s.ast.nodes.get? j
            rw [List.get?_set_ne _ _ (fun he => hj he.symm)]
        · rw [if_neg ht] at h
          exact Option.noConfusion h
  · intro s2 h
    unfold pushArray at h
    rcases hs : s.stack with _ | ⟨arrayRef, rest⟩ <;> rw [hs] at h <;> simp only [] at h
    · exact Option.noConfusion h
    · rcases hn : s.ast.nodes.get? arrayRef with _ | nd <;> rw [hn] at h <;>
        simp only [] at h
      · exact Option.noConfusion h
      · by_cases ht : nd.type = NodeType.ARRAY
        · rw [if_pos ht] at h
          unfold Ast.createNodeArrayElement at h
          simp only [] at h
          have h2 := Option.some.inj h
          have hlt : arrayRef < s.ast.nodes.length := by
            by_contra hge
            rw [List.get?_eq_none.mpr (Nat.le_of_not_lt hge)] at hn
            exact Option.noConfusion hn
          refine ⟨by rw [← h2], arrayRef, nd, rfl, hn, ht, ?_, ?_, ?_⟩
          · rw [← h2]
            show ((s.ast.nodes
                ++ [(⟨NodeType.ARRAY_ELEMENT, attributeName, [node], false⟩ : AstNode)]).set
                arrayRef
                { nd with members := nd.members ++ [s.ast.nodes.length] }).get? arrayRef = _
            have hlt2 : arrayRef < (s.ast.nodes
                ++ [(⟨NodeType.ARRAY_ELEMENT, attributeName, [node], false⟩ : AstNode)]).length := by
              rw [List.length_append]
              exact Nat.lt_of_lt_of_le hlt (Nat.le_add_right _ _)
            rw [List.get?_set_eq_of_lt _ hlt2]
          · rw [← h2]
            show ((s.ast.nodes
                ++ [(⟨NodeType.ARRAY_ELEMENT, attributeName, [node], false⟩ : AstNode)]).set
                arrayRef _).get? s.ast.nodes.length = _
            rw [List.get?_set_ne _ _ (Nat.ne_of_lt hlt), List.get?_concat_length]
          · intro j hj1 hj2
            rw [← h2]
            show ((s.ast.nodes
                ++ [(⟨NodeType.ARRAY_ELEMENT, attributeName, [node], false⟩ : AstNode)]).set
                arrayRef _).get? j = s.ast.nodes.get? j
            rw [List.get?_set_ne _ _ (fun he => hj1 he.symm)]
            rcases Nat.lt_or_ge j s.ast.nodes.length with hlt3 | hge3
            · rw [List.get?_append hlt3]
            · have hgt : s.ast.nodes.length < j :=
                Nat.lt_of_le_of_ne hge3 (fun he => hj2 he.symm)
              rw [List.get?_eq_none.mpr hge3, List.get?_eq_none.mpr ?_]
              rw [List.length_append, List.length_singleton]
              exact hgt
        · rw [if_neg ht] at h
          exact Option.noConfusion h
  · intro h
    unfold pushList pushArray
    rw [h]
    exact ⟨rfl, rfl⟩
  · intro listRef nd h1 h2
    rcases hs : s.stack with _ | ⟨x, rest⟩
    · rw [hs] at h1
      simp at h1
    · rw [hs] at h1
      have hx : x = listRef := by simpa using h1
      constructor
      · intro ht
        unfold pushList
        rw [hs, hx]
        simp only []
        rw [h2]
        simp only []
        rw [if_neg ht]
      · intro ht
        unfold pushArray
        rw [hs, hx]
        simp only []
        rw [h2]
        simp only []
        rw [if_neg ht]

/-- Witness for C10: pushList and pushArray fail on an empty stack, and a
concrete pushList onto a stack whose top references a list node preserves
the value stack. -/
theorem push_hooks_frame_witness :
    pushList emptyParserState 7 = none ∧
    pushArray emptyParserState "a" 7 = none ∧
    (⟨⟨QueryType.READ, [], "", []⟩,
        ⟨[], none, [⟨NodeType.LIST, "", [7], true⟩], []⟩, [0]⟩ : ParserState).stack
      = (⟨⟨QueryType.READ, [], "", []⟩,
        ⟨[], none, [⟨NodeType.LIST, "", [], true⟩], []⟩, [0]⟩ : ParserState).stack := by
  have he := push_hooks_frame emptyParserState "a" 7
  have h := push_hooks_frame
    ⟨⟨QueryType.READ, [], "", []⟩, ⟨[], none, [⟨NodeType.LIST, "", [], true⟩], []⟩, [0]⟩
    "a" 7
  refine ⟨(he.2.2.1 rfl).1, (he.2.2.1 rfl).2, ?_⟩
  exact (h.1 ⟨⟨QueryType.READ, [], "", []⟩,
    ⟨[], none, [⟨NodeType.LIST, "", [7], true⟩], []⟩, [0]⟩ (by decide)).1

end Aql
